import Mathlib

/-
Verification development for the hotel front-office PMS.

The definitions below are a shallow embedding of the repository's folio,
checkout, check-in, night-audit and document-archival logic:

  * `calculateFolioTotal`       from src/pages/InHouse.tsx
  * `handleAddCharge`           from src/pages/InHouse.tsx
  * `handleExtendStay`          from src/pages/InHouse.tsx
  * `confirmCheckout`           from src/pages/InHouse.tsx
  * `archiveTotals` and the document payloads
                                from src/lib/documentArchiveService.ts
  * `runNightAudit`             from the NightAudit page
  * `processCheckIn` / `processWalkIn`
                                from the CheckIn (front desk) page
  * `insertGuestDocument`       from the guest_documents migration
                                (append-only, no uniqueness constraint)

Monetary amounts and JavaScript `number` arithmetic are embedded as exact
rationals (the source applies no rounding in any of the modelled
computations); dates that the source compares as ISO strings stay strings,
and millisecond timestamps used in night calculations become rationals.
Database inserts become list appends; `select ... eq ...` filters become
`List.filter` with the same predicates.
-/

namespace FrontOffice

/-- A row of the `folio_charges` table, as selected and inserted by the UI. -/
structure FolioCharge where
  booking_id : String
  charge_date : String
  description : String
  amount : ℚ
  charge_type : String
deriving DecidableEq, Repr

/-- A row of the `payments` table. -/
structure Payment where
  booking_id : String
  amount : ℚ
  payment_mode : String
deriving DecidableEq, Repr

/-- The two flat tax rates read from settings (`taxes.cgst`, `taxes.sgst`). -/
structure TaxConfig where
  cgst : ℚ
  sgst : ℚ
deriving DecidableEq, Repr

/-- The record returned by `calculateFolioTotal` in src/pages/InHouse.tsx. -/
structure FolioTotals where
  subtotal : ℚ
  cgstAmount : ℚ
  sgstAmount : ℚ
  grandTotal : ℚ
  totalPayments : ℚ
  balance : ℚ
deriving DecidableEq, Repr

/-- `calculateFolioTotal` from src/pages/InHouse.tsx: reduce the charges and
payments with `(sum, x) => sum + x.amount` starting from 0, tax the subtotal
at the two flat rates, and net the grand total against the payments. -/
def calculateFolioTotal (folioCharges : List FolioCharge) (payments : List Payment)
    (taxes : TaxConfig) : FolioTotals :=
  let totalCharges := folioCharges.foldl (fun sum charge => sum + charge.amount) 0
  let totalPayments := payments.foldl (fun sum payment => sum + payment.amount) 0
  let subtotal := totalCharges
  let cgstAmount := (subtotal * taxes.cgst) / 100
  let sgstAmount := (subtotal * taxes.sgst) / 100
  let grandTotal := subtotal + cgstAmount + sgstAmount
  let balance := grandTotal - totalPayments
  { subtotal := subtotal, cgstAmount := cgstAmount, sgstAmount := sgstAmount,
    grandTotal := grandTotal, totalPayments := totalPayments, balance := balance }

/-- Concrete charge of 1500 used in the spec's worked example. -/
def exampleCharge1 : FolioCharge :=
  { booking_id := "b1", charge_date := "2026-02-01", description := "Room Rent",
    amount := 1500, charge_type := "room_rent" }

/-- Second concrete charge of 1500 used in the spec's worked example. -/
def exampleCharge2 : FolioCharge :=
  { booking_id := "b1", charge_date := "2026-02-02", description := "Room Rent",
    amount := 1500, charge_type := "room_rent" }

/-- Concrete payment of 1000 used in the spec's worked example. -/
def examplePayment : Payment :=
  { booking_id := "b1", amount := 1000, payment_mode := "cash" }

/-- The `totals` block of a `DocumentData` payload, with the field names used
by src/lib/documentArchiveService.ts. -/
structure DocTotals where
  subtotal : ℚ
  cgst_amount : ℚ
  sgst_amount : ℚ
  grand_total : ℚ
  total_paid : ℚ
  balance : ℚ
deriving DecidableEq, Repr

/-- The totals computation inlined in `archiveInvoice`
(src/lib/documentArchiveService.ts): reduce the charges, tax the subtotal at
the two flat rates, reduce the payments, net the balance. -/
def archiveTotals (folioCharges : List FolioCharge) (payments : List Payment)
    (taxes : TaxConfig) : DocTotals :=
  let subtotal := folioCharges.foldl (fun sum c => sum + c.amount) 0
  let cgstAmount := (subtotal * taxes.cgst) / 100
  let sgstAmount := (subtotal * taxes.sgst) / 100
  let grandTotal := subtotal + cgstAmount + sgstAmount
  let totalPaid := payments.foldl (fun sum p => sum + p.amount) 0
  { subtotal := subtotal, cgst_amount := cgstAmount, sgst_amount := sgstAmount,
    grand_total := grandTotal, total_paid := totalPaid,
    balance := grandTotal - totalPaid }

/-- The parts of the structured `document_data` payload relevant to the
totals round-trip: the embedded charge list, payment list, tax rates and the
frozen totals block. -/
structure DocumentData where
  charges : List FolioCharge
  payments : List Payment
  taxes : TaxConfig
  totals : DocTotals
deriving DecidableEq, Repr

/-- The `documentData` built by `archiveInvoice`: the full charge and payment
lists, the tax rates in force, and the totals computed from them. -/
def invoiceDocumentData (folioCharges : List FolioCharge) (payments : List Payment)
    (taxes : TaxConfig) : DocumentData :=
  { charges := folioCharges, payments := payments, taxes := taxes,
    totals := archiveTotals folioCharges payments taxes }

/-- The `documentData` built by `archiveGRC`: empty charge and payment lists,
the tax rates in force, and a totals block of literal zeroes. -/
def grcDocumentData (taxes : TaxConfig) : DocumentData :=
  { charges := [], payments := [], taxes := taxes,
    totals := { subtotal := 0, cgst_amount := 0, sgst_amount := 0,
                grand_total := 0, total_paid := 0, balance := 0 } }

/-- A row of the `guest_documents` table (migration in the repository's
supabase directory): the table has indexes on `booking_id` and
`document_number` but no UNIQUE constraint on `document_number` nor on
`(booking_id, document_type)`, so an insert always appends a new row. -/
structure GuestDocumentRow where
  booking_id : String
  guest_id : String
  document_type : String
  document_number : String
deriving DecidableEq, Repr

/-- Insert into `guest_documents`: plain append, since the schema enforces no
uniqueness on the archival columns. -/
def insertGuestDocument (tbl : List GuestDocumentRow) (row : GuestDocumentRow) :
    List GuestDocumentRow :=
  tbl ++ [row]

/-- The document-number scheme of documentArchiveService.ts: configured
leading tag, a dash, and the first 8 characters of the booking id,
uppercased. -/
def documentNumberFor (tag bookingId : String) : String :=
  tag ++ "-" ++ String.map Char.toUpper (bookingId.take 8)

/-- `archiveInvoice` builds its document number with the configured invoice
tag `INV` (hotelConfig.ts). -/
def invoiceDocumentNumber (bookingId : String) : String :=
  documentNumberFor "INV" bookingId

/-- The `guest_documents` row inserted by `archiveInvoice` for a booking. -/
def invoiceDocumentRow (bookingId guestId : String) : GuestDocumentRow :=
  { booking_id := bookingId, guest_id := guestId, document_type := "invoice",
    document_number := invoiceDocumentNumber bookingId }

/-- Booking status values used by the modelled pages. -/
inductive BookingStatus where
  | checked_in
  | checked_out
deriving DecidableEq, Repr

/-- A row of the `bookings` table as loaded by the NightAudit page with its
`rooms(room_types)` join flattened: `room_number`, `room_type_name` and
`base_rate` stand for `booking.rooms.room_number`,
`booking.rooms.room_types.name` and `booking.rooms.room_types.base_rate`.
`check_in_date` is the date part of the stored check-in timestamp, exactly
the string the audit compares against `today`. -/
structure Booking where
  id : String
  guest_id : String
  room_id : String
  check_in_date : String
  expected_check_out_ms : ℚ
  status : BookingStatus
  room_number : String
  room_type_name : String
  base_rate : ℚ
deriving DecidableEq, Repr

/-- The existence-check predicate of the night audit: the three `eq` filters
of its `folio_charges` select (`booking_id`, `charge_date`, `charge_type =
room_rent`). -/
def auditPred (bid today : String) (c : FolioCharge) : Bool :=
  c.booking_id == bid && c.charge_date == today && c.charge_type == "room_rent"

/-- Number of room-rent charges a booking holds for a given date. -/
def countRR (cs : List FolioCharge) (bid today : String) : Nat :=
  (cs.filter (auditPred bid today)).length

/-- The `folio_charges` row the night audit inserts for a stayover booking. -/
def nightAuditCharge (b : Booking) (today : String) : FolioCharge :=
  { booking_id := b.id, charge_date := today,
    description := "Room Rent - " ++ b.room_number ++ " (" ++ b.room_type_name ++ ")",
    amount := b.base_rate, charge_type := "room_rent" }

/-- One iteration of the night-audit loop over a booking: only stayovers
(check-in date strictly before today, compared as ISO date strings exactly
as the source compares them) get a charge, and only when the existence check
returns no rows. -/
def auditStep (today : String) (cs : List FolioCharge) (b : Booking) :
    List FolioCharge :=
  if b.check_in_date < today then
    if (cs.filter (auditPred b.id today)).length = 0 then
      cs ++ [nightAuditCharge b today]
    else cs
  else cs

/-- `runNightAudit` from the NightAudit page: iterate over the in-house
bookings (the `bookings` rows with status `checked_in`, as loaded by
`loadAuditData`), posting at most one room-rent charge each; every
existence check runs against the live charge table, so charges inserted
earlier in the same run are visible to later iterations. -/
def runNightAudit (bookingTable : List Booking) (cs : List FolioCharge)
    (today : String) : List FolioCharge :=
  (bookingTable.filter (fun b => b.status == BookingStatus.checked_in)).foldl
    (auditStep today) cs

/-- Concrete checked-in stayover booking used as witness input. -/
def exampleBooking : Booking :=
  { id := "b1", guest_id := "g1", room_id := "r1",
    check_in_date := "2026-02-01", expected_check_out_ms := 0,
    status := BookingStatus.checked_in, room_number := "101",
    room_type_name := "Deluxe", base_rate := 1500 }

/-- `handleAddCharge` from src/pages/InHouse.tsx: the form's charge row is
inserted into `folio_charges` directly — the handler performs no existence
check of any kind before the insert (the form lets the operator pick any
charge type, `room_rent` included, and any date). -/
def handleAddCharge (cs : List FolioCharge) (chargeData : FolioCharge) :
    List FolioCharge :=
  cs ++ [chargeData]

/-- The charge rows inserted by the extend-stay loop of
src/pages/InHouse.tsx: one `room_rent` charge per additional night, dated
current checkout plus `i` days.  `fmtDate` stands for the JavaScript
rendering `date.toISOString().split(T)[0]` of a millisecond timestamp. -/
def extendStayCharges (fmtDate : ℚ → String) (b : Booking)
    (currentCheckout : ℚ) (additionalNights : Nat) : List FolioCharge :=
  (List.range additionalNights).map (fun i =>
    { booking_id := b.id,
      charge_date := fmtDate (currentCheckout + i * 86400000),
      description := "Room Rent - " ++ b.room_type_name ++ " (Extended)",
      amount := b.base_rate, charge_type := "room_rent" })

/-- `handleExtendStay` from src/pages/InHouse.tsx: compute
`additionalNights = ceil((newCheckout − currentCheckout) / 1 day)` from the
millisecond timestamps and, when positive, append that many `room_rent`
charges — with no check against already-existing charges for those dates. -/
def handleExtendStay (fmtDate : ℚ → String) (b : Booking)
    (currentCheckout newCheckout : ℚ) (cs : List FolioCharge) :
    List FolioCharge :=
  let additionalNights : ℤ := ⌈(newCheckout - currentCheckout) / 86400000⌉
  if 0 < additionalNights then
    cs ++ extendStayCharges fmtDate b currentCheckout additionalNights.toNat
  else cs

/-- Room status values of the `rooms` table. -/
inductive RoomStatus where
  | vacant_clean
  | vacant_dirty
  | occupied
  | out_of_order
deriving DecidableEq, Repr

/-- A row of the `rooms` table with its `room_types` join flattened
(`base_rate` and `room_type_name` stand for `room.room_types.base_rate` and
`room.room_types.name`). -/
structure Room where
  id : String
  room_number : String
  status : RoomStatus
  room_type_id : String
  room_type_name : String
  base_rate : ℚ
deriving DecidableEq, Repr

/-- The database rows touched by the checkout workflow. -/
structure DBState where
  bookings : List Booking
  rooms : List Room
  payments : List Payment
  folio_charges : List FolioCharge
  guest_documents : List GuestDocumentRow
deriving Repr

/-- The final-payment rows inserted by `confirmCheckout`: one row when
`checkoutPaymentData` is present with a positive amount, none otherwise. -/
def finalPaymentRows (bid : String) (payData : Option (ℚ × String)) :
    List Payment :=
  match payData with
  | some pd =>
      if 0 < pd.1 then [{ booking_id := bid, amount := pd.1, payment_mode := pd.2 }]
      else []
  | none => []

/-- The `guest_documents` row inserted by `archiveGRC` for a booking. -/
def grcDocumentRow (bookingId guestId : String) : GuestDocumentRow :=
  { booking_id := bookingId, guest_id := guestId, document_type := "grc",
    document_number := documentNumberFor "GRC" bookingId }

/-- `archiveInvoice` from src/lib/documentArchiveService.ts, seen from its
caller: it inserts the invoice row into `guest_documents` and returns a
success flag.  When the insert errors, the error is caught inside the
function itself and reported as `success := false` — the function never
throws to its caller.  `insertFails` embeds whether the backend insert
errors. -/
def archiveInvoice (b : Booking) (docs : List GuestDocumentRow)
    (insertFails : Bool) : Bool × List GuestDocumentRow :=
  if insertFails then (false, docs)
  else (true, insertGuestDocument docs (invoiceDocumentRow b.id b.guest_id))

/-- `archiveGRC` from src/lib/documentArchiveService.ts, with the same
catch-inside / success-flag contract as `archiveInvoice`. -/
def archiveGRC (b : Booking) (docs : List GuestDocumentRow)
    (insertFails : Bool) : Bool × List GuestDocumentRow :=
  if insertFails then (false, docs)
  else (true, insertGuestDocument docs (grcDocumentRow b.id b.guest_id))

/-- `confirmCheckout` from src/pages/InHouse.tsx.  The source awaits the
payment insert, the two archival calls, the booking update and the room
update in a straight line: the archival success flags are computed by
`archiveInvoice` / `archiveGRC` but never inspected, no supabase error is
checked, and nothing in the body throws, so every step runs regardless of
the outcome of the previous ones.  `bookingDataFound` embeds the
`if (bookingData)` guard around the two archival calls (archival is skipped
entirely when the guest-id fetch returns nothing). -/
def confirmCheckout (st : DBState) (b : Booking) (payData : Option (ℚ × String))
    (bookingDataFound invoiceInsertFails grcInsertFails : Bool) : DBState :=
  let st1 : DBState :=
    { st with payments := st.payments ++ finalPaymentRows b.id payData }
  let docsAfterArchive : List GuestDocumentRow :=
    if bookingDataFound then
      let invResult := archiveInvoice b st1.guest_documents invoiceInsertFails
      let grcResult := archiveGRC b invResult.2 grcInsertFails
      grcResult.2
    else st1.guest_documents
  let st2 : DBState := { st1 with guest_documents := docsAfterArchive }
  let st3 : DBState :=
    { st2 with bookings := st2.bookings.map (fun bk =>
        if bk.id == b.id then { bk with status := BookingStatus.checked_out }
        else bk) }
  { st3 with rooms := st3.rooms.map (fun r =>
      if r.id == b.room_id then { r with status := RoomStatus.vacant_dirty }
      else r) }

/-- Status of a booking row in a database state. -/
def bookingStatusIn (st : DBState) (bid : String) : Option BookingStatus :=
  (st.bookings.find? (fun bk => bk.id == bid)).map (fun bk => bk.status)

/-- Status of a room row in a database state. -/
def roomStatusIn (st : DBState) (rid : String) : Option RoomStatus :=
  (st.rooms.find? (fun r => r.id == rid)).map (fun r => r.status)

/-- The occupied room of the example booking, before checkout. -/
def exampleRoom : Room :=
  { id := "r1", room_number := "101", status := RoomStatus.occupied,
    room_type_id := "t1", room_type_name := "Deluxe", base_rate := 1500 }

/-- A concrete pre-checkout database state: one checked-in booking in its
occupied room, no documents archived yet. -/
def exampleState : DBState :=
  { bookings := [exampleBooking], rooms := [exampleRoom], payments := [],
    folio_charges := [], guest_documents := [] }

/-- The state `confirmCheckout` leaves behind when both `guest_documents`
inserts fail (both archival calls return `success := false`). -/
def failedArchivalCheckoutState : DBState :=
  confirmCheckout exampleState exampleBooking (some (500, "cash")) true true true

/-- The available-rooms query of the check-in page's `loadData` (and of the
room-move loader in InHouse.tsx): select rooms whose status equals
`vacant_clean`. -/
def loadAvailableRooms (rooms : List Room) : List Room :=
  rooms.filter (fun r => r.status == RoomStatus.vacant_clean)

/-- A `reservations` row as used by `processCheckIn`.
`check_out_date_ms` is the reservation's checkout date as the millisecond
timestamp JavaScript parses it to. -/
structure Reservation where
  id : String
  guest_id : String
  check_out_date_ms : ℚ
  number_of_guests : Nat
deriving DecidableEq, Repr

/-- The rows a successful reservation check-in issues inserts for: the
created booking, its single upfront folio charge, and the room marked
occupied.  The charge row carries charge_type `room`, which the
`folio_charges` valid_charge_type CHECK constraint rejects (see
`insertFolioCharge`), so that row is never actually persisted — the insert's
error object is discarded by the caller. -/
structure CheckInResult where
  booking : Booking
  charge : FolioCharge
  occupiedRoomId : String
deriving Repr

/-- `processCheckIn` from the check-in page: look the selected room up in
the available (vacant_clean) list and throw if absent; compute
`nights = ceil((reservation checkout − now) / 1 day)` from millisecond
timestamps; issue inserts for one booking and one `room`-typed charge of
`base_rate × nights`, and mark the room occupied.  The charge insert is in
fact rejected by the schema's valid_charge_type CHECK (its error is
ignored); `insertFolioCharge` models that persistence step.  `fmtDate`
renders a timestamp the way the source's ISO conversion does;
`newBookingId` is the id the store generates for the inserted booking. -/
def processCheckIn (fmtDate : ℚ → String) (availableRooms : List Room)
    (selectedRoom : String) (newBookingId : String) (resv : Reservation)
    (now : ℚ) : Option CheckInResult :=
  if selectedRoom = "" then none
  else
    match availableRooms.find? (fun r => r.id == selectedRoom) with
    | none => none
    | some room =>
      let nights : ℤ := ⌈(resv.check_out_date_ms - now) / 86400000⌉
      let roomRate : ℚ := room.base_rate * nights
      some
        { booking :=
            { id := newBookingId, guest_id := resv.guest_id,
              room_id := selectedRoom, check_in_date := fmtDate now,
              expected_check_out_ms := resv.check_out_date_ms,
              status := BookingStatus.checked_in,
              room_number := room.room_number,
              room_type_name := room.room_type_name,
              base_rate := room.base_rate },
          charge :=
            { booking_id := newBookingId, charge_date := fmtDate now,
              description := "Room Charge - " ++ room.room_type_name
                ++ " (" ++ toString nights ++ " nights)",
              amount := roomRate, charge_type := "room" },
          occupiedRoomId := selectedRoom }

/-- The walk-in form state of the check-in page. -/
structure WalkInData where
  guestName : String
  mobile : String
  roomId : String
  nights : Nat
  advancePayment : ℚ
  paymentMode : String
  numberOfGuests : Nat
deriving Repr

/-- The rows a successful walk-in check-in issues inserts for.  As with
`CheckInResult`, the `room`-typed charge row is rejected by the
`folio_charges` valid_charge_type CHECK constraint and never persists. -/
structure WalkInResult where
  booking : Booking
  charge : FolioCharge
  payments : List Payment
  occupiedRoomId : String
deriving Repr

/-- `processWalkIn` from the check-in page: bail out on missing required
fields; reuse the existing guest found by mobile or the newly created one
and throw if neither exists; look the selected room up in the available
(vacant_clean) list and throw if absent; set the expected checkout to now
plus the entered number of nights; issue inserts for one booking, one
`room`-typed charge of `base_rate × nights` (rejected by the schema's
valid_charge_type CHECK, error ignored — see `insertFolioCharge`), and the
advance payment when positive. -/
def processWalkIn (fmtDate : ℚ → String) (availableRooms : List Room)
    (w : WalkInData) (existingGuestId newGuestId : Option String)
    (newBookingId : String) (now : ℚ) : Option WalkInResult :=
  if w.guestName = "" ∨ w.mobile = "" ∨ w.roomId = "" then none
  else
    match existingGuestId.orElse (fun _ => newGuestId),
        availableRooms.find? (fun r => r.id == w.roomId) with
    | some guestId, some room =>
      let checkOut : ℚ := now + w.nights * 86400000
      let roomRate : ℚ := room.base_rate * w.nights
      some
        { booking :=
            { id := newBookingId, guest_id := guestId, room_id := w.roomId,
              check_in_date := fmtDate now, expected_check_out_ms := checkOut,
              status := BookingStatus.checked_in,
              room_number := room.room_number,
              room_type_name := room.room_type_name,
              base_rate := room.base_rate },
          charge :=
            { booking_id := newBookingId, charge_date := fmtDate now,
              description := "Room Charge - " ++ room.room_type_name
                ++ " (" ++ toString w.nights ++ " nights)",
              amount := roomRate, charge_type := "room" },
          payments :=
            if 0 < w.advancePayment then
              [{ booking_id := newBookingId, amount := w.advancePayment,
                 payment_mode := w.paymentMode }]
            else [],
          occupiedRoomId := w.roomId }
    | _, _ => none

/-- A concrete confirmed reservation used as witness input. -/
def exampleReservation : Reservation :=
  { id := "res1", guest_id := "g1", check_out_date_ms := 86400000,
    number_of_guests := 1 }

/-- The upfront `room`-typed charge the CheckIn page attempts to insert for
the example booking (rejected by the schema's CHECK constraint). -/
def exampleRoomCharge : FolioCharge :=
  { booking_id := "b1", charge_date := "2026-02-01",
    description := "Room Charge - Deluxe (1 nights)", amount := 1500,
    charge_type := "room" }

/-- The charge types admitted by the `folio_charges` valid_charge_type
CHECK constraint, identical in both schema migrations that create the
table; `room` is not among them. -/
def validChargeTypes : List String :=
  ["room_rent", "extra_bed", "early_checkin", "late_checkout", "miscellaneous"]

/-- Insert into `folio_charges` as the backing store executes it: a row
whose charge_type violates the valid_charge_type CHECK constraint is
rejected with an error and the table is unchanged.  Every caller modelled
here discards the insert's returned error object, so a rejected row is
silently lost. -/
def insertFolioCharge (cs : List FolioCharge) (c : FolioCharge) :
    List FolioCharge :=
  if c.charge_type ∈ validChargeTypes then cs ++ [c] else cs

/-- The per-night room-rent charges posted by `handleCheckin` in
src/pages/Guests.tsx (the third check-in path, run when the selected room
was found among the available rooms): `nights = ceil((checkout − now) /
1 day)` and the loop inserts one `room_rent` charge per night, dated now
plus `i` days. -/
def handleCheckinCharges (fmtDate : ℚ → String) (roomTypeName : String)
    (baseRate : ℚ) (bookingId : String) (now checkOutMs : ℚ) :
    List FolioCharge :=
  let nights : ℤ := ⌈(checkOutMs - now) / 86400000⌉
  (List.range nights.toNat).map (fun i : ℕ =>
    { booking_id := bookingId,
      charge_date := fmtDate (now + (i : ℚ) * 86400000),
      description := "Room Rent - " ++ roomTypeName
        ++ " (Night " ++ toString (i + 1) ++ ")",
      amount := baseRate, charge_type := "room_rent" })

/-- Folding `+ amount` from 0 is summing the mapped amounts. -/
theorem foldl_add_amount {α : Type} (f : α → ℚ) (l : List α) :
    l.foldl (fun sum x => sum + f x) 0 = (l.map f).sum := by
  rw [List.sum_eq_foldl, List.foldl_map]

/-- Claim C2: for every charge set, payment set and tax rates, the folio
totals computation returns subtotal = Σ amounts, cgst = subtotal·cgst/100,
sgst = subtotal·sgst/100, grandTotal = subtotal + cgst + sgst,
totalPaid = Σ payments and balance = grandTotal − totalPaid; on the worked
example (charges 1500+1500, 6% + 6%, payment 1000) it returns subtotal 3000,
cgst 180, sgst 180, grand total 3360, balance 2360. -/
theorem calculateFolioTotal_spec :
    (∀ (cs : List FolioCharge) (ps : List Payment) (t : TaxConfig),
      calculateFolioTotal cs ps t =
        { subtotal := (cs.map (fun c => c.amount)).sum,
          cgstAmount := (cs.map (fun c => c.amount)).sum * t.cgst / 100,
          sgstAmount := (cs.map (fun c => c.amount)).sum * t.sgst / 100,
          grandTotal := (cs.map (fun c => c.amount)).sum
            + (cs.map (fun c => c.amount)).sum * t.cgst / 100
            + (cs.map (fun c => c.amount)).sum * t.sgst / 100,
          totalPayments := (ps.map (fun p => p.amount)).sum,
          balance := (cs.map (fun c => c.amount)).sum
            + (cs.map (fun c => c.amount)).sum * t.cgst / 100
            + (cs.map (fun c => c.amount)).sum * t.sgst / 100
            - (ps.map (fun p => p.amount)).sum })
    ∧ calculateFolioTotal [exampleCharge1, exampleCharge2] [examplePayment]
        { cgst := 6, sgst := 6 } =
        { subtotal := 3000, cgstAmount := 180, sgstAmount := 180,
          grandTotal := 3360, totalPayments := 1000, balance := 2360 } := by
  constructor
  · intro cs ps t
    simp only [calculateFolioTotal, foldl_add_amount]
  · norm_num [calculateFolioTotal, exampleCharge1, exampleCharge2, examplePayment]

/-- Claim C7: the grand total computed by `calculateFolioTotal` equals the
closed form Σ amount · (1 + (cgst + sgst)/100).  The embedding is exact
rational arithmetic because the source computation applies no rounding at
any intermediate step (rounding happens only in display formatting). -/
theorem calculateFolioTotal_grandTotal_closed_form :
    ∀ (cs : List FolioCharge) (ps : List Payment) (t : TaxConfig),
      (calculateFolioTotal cs ps t).grandTotal =
        (cs.map (fun c => c.amount)).sum * (1 + (t.cgst + t.sgst) / 100) := by
  intro cs ps t
  simp only [calculateFolioTotal, foldl_add_amount]
  ring

/-- Claim C5: for both archived document types, recomputing the totals
formula over the charge list, payment list and tax rates embedded in the
document's own payload reproduces exactly the totals stored in that
payload. -/
theorem archivedDocument_totals_roundtrip :
    (∀ (cs : List FolioCharge) (ps : List Payment) (t : TaxConfig),
      archiveTotals (invoiceDocumentData cs ps t).charges
          (invoiceDocumentData cs ps t).payments
          (invoiceDocumentData cs ps t).taxes =
        (invoiceDocumentData cs ps t).totals)
    ∧ (∀ t : TaxConfig,
      archiveTotals (grcDocumentData t).charges (grcDocumentData t).payments
          (grcDocumentData t).taxes =
        (grcDocumentData t).totals) := by
  constructor
  · intro cs ps t
    rfl
  · intro t
    simp [archiveTotals, grcDocumentData]

/-- Claim C10: the archived document number is a deterministic pure function
of the booking id (tag, dash, first 8 characters of the id uppercased): two
archival runs for the same booking — whatever else changed between them —
produce the same document_number, and because `guest_documents` enforces no
uniqueness, archiving the same booking twice leaves two rows with that same
document number (and two rows of type `invoice` for that booking id). -/
theorem invoiceDocumentNumber_deterministic_and_duplicable :
    ∀ (tbl : List GuestDocumentRow) (bid gid1 gid2 : String),
      (invoiceDocumentRow bid gid1).document_number
          = (invoiceDocumentRow bid gid2).document_number
      ∧ (invoiceDocumentRow bid gid1).document_number
          = "INV" ++ "-" ++ String.map Char.toUpper (bid.take 8)
      ∧ ((insertGuestDocument (insertGuestDocument tbl (invoiceDocumentRow bid gid1))
            (invoiceDocumentRow bid gid2)).filter
          (fun r => r.document_number == invoiceDocumentNumber bid)).length
        = (tbl.filter (fun r => r.document_number == invoiceDocumentNumber bid)).length
            + 2
      ∧ ((insertGuestDocument (insertGuestDocument tbl (invoiceDocumentRow bid gid1))
            (invoiceDocumentRow bid gid2)).filter
          (fun r => r.booking_id == bid && r.document_type == "invoice")).length
        = (tbl.filter
            (fun r => r.booking_id == bid && r.document_type == "invoice")).length
            + 2 := by
  intro tbl bid gid1 gid2
  refine ⟨rfl, rfl, ?_, ?_⟩
  · simp [insertGuestDocument, List.filter_append, invoiceDocumentRow]
  · simp [insertGuestDocument, List.filter_append, invoiceDocumentRow]

/-- Counting room-rent charges distributes over append. -/
theorem countRR_append (cs ts : List FolioCharge) (bid today : String) :
    countRR (cs ++ ts) bid today = countRR cs bid today + countRR ts bid today := by
  simp [countRR, List.filter_append]

/-- The audit's inserted charge matches its own existence predicate. -/
theorem countRR_nightAuditCharge_self (b : Booking) (today : String) :
    countRR [nightAuditCharge b today] b.id today = 1 := by
  simp [countRR, auditPred, nightAuditCharge]

/-- The audit's inserted charge for one booking never matches another
booking id's existence predicate. -/
theorem countRR_nightAuditCharge_ne (b : Booking) (bid today : String)
    (h : b.id ≠ bid) :
    countRR [nightAuditCharge b today] bid today = 0 := by
  simp [countRR, auditPred, nightAuditCharge, h]

/-- Effect of one audit iteration on the room-rent count of any booking id:
a new charge appears exactly when the iterated booking carries that id, is a
stayover, and the count was zero. -/
theorem countRR_auditStep (today : String) (cs : List FolioCharge) (b : Booking)
    (bid : String) :
    countRR (auditStep today cs b) bid today =
      if b.id = bid ∧ b.check_in_date < today ∧ countRR cs bid today = 0
      then 1 else countRR cs bid today := by
  unfold auditStep
  by_cases hlt : b.check_in_date < today
  · simp only [hlt, if_true]
    by_cases hid : b.id = bid
    · subst hid
      by_cases h0 : countRR cs b.id today = 0
      · have hf : (cs.filter (auditPred b.id today)).length = 0 := h0
        simp [hf, countRR_append, h0, countRR_nightAuditCharge_self, hlt]
      · have hf : ¬ (cs.filter (auditPred b.id today)).length = 0 := h0
        simp [hf, h0, hlt]
    · by_cases hf : (cs.filter (auditPred b.id today)).length = 0
      · simp [hf, countRR_append, countRR_nightAuditCharge_ne b bid today hid, hid]
      · simp [hf, hid]
  · simp [hlt]

/-- Audit iterations only ever append to the charge table. -/
theorem auditStep_eq_append (today : String) (cs : List FolioCharge) (b : Booking) :
    ∃ ts, auditStep today cs b = cs ++ ts := by
  unfold auditStep
  by_cases hlt : b.check_in_date < today
  · by_cases hf : (cs.filter (auditPred b.id today)).length = 0
    · exact ⟨[nightAuditCharge b today], by simp [hlt, hf]⟩
    · exact ⟨[], by simp [hlt, hf]⟩
  · exact ⟨[], by simp [hlt]⟩

/-- A whole audit pass only ever appends to the charge table. -/
theorem foldl_auditStep_eq_append (today : String) (l : List Booking) :
    ∀ cs : List FolioCharge, ∃ ts, l.foldl (auditStep today) cs = cs ++ ts := by
  induction l with
  | nil => exact fun cs => ⟨[], by simp⟩
  | cons b l ih =>
    intro cs
    obtain ⟨ts1, h1⟩ := auditStep_eq_append today cs b
    obtain ⟨ts2, h2⟩ := ih (auditStep today cs b)
    exact ⟨ts1 ++ ts2, by rw [List.foldl_cons, h2, h1, List.append_assoc]⟩

/-- Once a booking id already holds a room-rent charge for today, an audit
pass adds none for it. -/
theorem countRR_foldl_of_pos (today : String) (l : List Booking) :
    ∀ cs : List FolioCharge, ∀ bid : String, 0 < countRR cs bid today →
      countRR (l.foldl (auditStep today) cs) bid today = countRR cs bid today := by
  induction l with
  | nil => intro cs bid _; rfl
  | cons b l ih =>
    intro cs bid h
    rw [List.foldl_cons]
    have hneg : ¬ (b.id = bid ∧ b.check_in_date < today ∧ countRR cs bid today = 0) := by
      rintro ⟨-, -, h0⟩
      omega
    have hstep : countRR (auditStep today cs b) bid today = countRR cs bid today := by
      rw [countRR_auditStep, if_neg hneg]
    rw [ih (auditStep today cs b) bid (by rw [hstep]; exact h), hstep]

/-- If a booking id holds no room-rent charge for today and some stayover
booking in the iterated list carries that id, an audit pass leaves exactly
one such charge. -/
theorem countRR_foldl_of_zero (today : String) (l : List Booking) :
    ∀ cs : List FolioCharge, ∀ bid : String, countRR cs bid today = 0 →
      (∃ b ∈ l, b.id = bid ∧ b.check_in_date < today) →
      countRR (l.foldl (auditStep today) cs) bid today = 1 := by
  induction l with
  | nil => rintro cs bid _ ⟨b, hb, -⟩; exact absurd hb (List.not_mem_nil b)
  | cons b l ih =>
    rintro cs bid h0 ⟨b0, hb0, hid0, hlt0⟩
    rw [List.foldl_cons]
    by_cases hcond : b.id = bid ∧ b.check_in_date < today
    · have hstep : countRR (auditStep today cs b) bid today = 1 := by
        rw [countRR_auditStep, if_pos ⟨hcond.1, hcond.2, h0⟩]
      rw [countRR_foldl_of_pos today l (auditStep today cs b) bid
        (by rw [hstep]; omega)]
      exact hstep
    · have hneg : ¬ (b.id = bid ∧ b.check_in_date < today ∧ countRR cs bid today = 0) := by
        rintro ⟨h1, h2, -⟩
        exact hcond ⟨h1, h2⟩
      have hstep : countRR (auditStep today cs b) bid today = countRR cs bid today := by
        rw [countRR_auditStep, if_neg hneg]
      have hb0l : b0 ∈ l := by
        rcases List.mem_cons.mp hb0 with h | h
        · exact absurd ⟨h ▸ hid0, h ▸ hlt0⟩ hcond
        · exact h
      exact ih (auditStep today cs b) bid (by rw [hstep]; exact h0)
        ⟨b0, hb0l, hid0, hlt0⟩

/-- After an audit pass, every stayover booking in the iterated list holds a
room-rent charge for today. -/
theorem countRR_foldl_pos_of_mem (today : String) (l : List Booking)
    (cs : List FolioCharge) (b : Booking) (hb : b ∈ l)
    (hlt : b.check_in_date < today) :
    0 < countRR (l.foldl (auditStep today) cs) b.id today := by
  by_cases h0 : countRR cs b.id today = 0
  · rw [countRR_foldl_of_zero today l cs b.id h0 ⟨b, hb, rfl, hlt⟩]
    omega
  · rw [countRR_foldl_of_pos today l cs b.id (by omega)]
    omega

/-- An audit pass in which every stayover booking already holds today's
room-rent charge changes nothing. -/
theorem foldl_auditStep_noop (today : String) (l : List Booking) :
    ∀ cs : List FolioCharge,
      (∀ b ∈ l, b.check_in_date < today → 0 < countRR cs b.id today) →
      l.foldl (auditStep today) cs = cs := by
  induction l with
  | nil => intro cs _; rfl
  | cons b l ih =>
    intro cs h
    have hstep : auditStep today cs b = cs := by
      unfold auditStep
      by_cases hlt : b.check_in_date < today
      · have := h b (List.mem_cons_self b l) hlt
        have hf : ¬ (cs.filter (auditPred b.id today)).length = 0 := by
          have : 0 < (cs.filter (auditPred b.id today)).length := this
          omega
        simp [hlt, hf]
      · simp [hlt]
    rw [List.foldl_cons, hstep, ih cs (fun b hb hlt => h b (List.mem_cons_of_mem _ hb) hlt)]

/-- Claim C3: one night-audit run posts, for each checked-in booking whose
check-in date precedes today, exactly one room-rent charge dated today iff
no such (booking, date, room_rent) charge already exists; and a second run
on the same day is a no-op, so each qualifying booking's charge is posted
exactly once across the two runs. -/
theorem runNightAudit_exactly_once_and_idempotent :
    (∀ (tbl : List Booking) (cs : List FolioCharge) (today : String) (b : Booking),
      b ∈ tbl → b.status = BookingStatus.checked_in → b.check_in_date < today →
      countRR (runNightAudit tbl cs today) b.id today =
        if countRR cs b.id today = 0 then 1 else countRR cs b.id today)
    ∧ ∀ (tbl : List Booking) (cs : List FolioCharge) (today : String),
      runNightAudit tbl (runNightAudit tbl cs today) today =
        runNightAudit tbl cs today := by
  constructor
  · intro tbl cs today b hb hstatus hlt
    have hmem : b ∈ tbl.filter (fun b => b.status == BookingStatus.checked_in) := by
      rw [List.mem_filter]
      refine ⟨hb, ?_⟩
      simp [hstatus]
    unfold runNightAudit
    by_cases h0 : countRR cs b.id today = 0
    · rw [countRR_foldl_of_zero today _ cs b.id h0 ⟨b, hmem, rfl, hlt⟩]
      simp [h0]
    · rw [countRR_foldl_of_pos today _ cs b.id (by omega)]
      simp [h0]
  · intro tbl cs today
    unfold runNightAudit
    apply foldl_auditStep_noop
    intro b hb hlt
    exact countRR_foldl_pos_of_mem today _ cs b hb hlt

/-- Witness for claim C3: on an empty charge table, one audit run over the
single stayover booking posts exactly one room-rent charge for it. -/
theorem runNightAudit_exactly_once_witness :
    countRR (runNightAudit [exampleBooking] [] "2026-02-02") "b1" "2026-02-02" = 1 := by
  have hlt : exampleBooking.check_in_date < "2026-02-02" := by
    rw [show exampleBooking.check_in_date = "2026-02-01" from rfl,
      String.lt_iff_toList_lt]
    decide
  have h := runNightAudit_exactly_once_and_idempotent.1 [exampleBooking] []
    "2026-02-02" exampleBooking (List.mem_singleton.mpr rfl) rfl hlt
  simpa [exampleBooking, countRR] using h

/-- Counterexample to claim C4 as stated: the manual charge-entry path
performs no duplicate check, so posting a `room_rent` charge for a
booking/date that already holds one leaves the booking with two `room_rent`
charges for the same date. -/
theorem handleAddCharge_posts_duplicate_room_rent :
    countRR (handleAddCharge [exampleCharge1] exampleCharge1)
      "b1" "2026-02-01" = 2 := by
  simp [handleAddCharge, countRR, auditPred, exampleCharge1]

/-- Claim C4 (amended): only the night-audit posting path guards against an
existing same-booking/same-date/same-type charge; manual charge entry and
stay extension append their `room_rent` rows unconditionally, so only the
night audit is guaranteed never to post a duplicate. -/
theorem roomRent_duplicate_guard_only_in_night_audit :
    (∀ (cs : List FolioCharge) (chargeData : FolioCharge),
      handleAddCharge cs chargeData = cs ++ [chargeData])
    ∧ (∀ (fmtDate : ℚ → String) (b : Booking) (cur newCO : ℚ)
        (cs : List FolioCharge),
        0 < ⌈(newCO - cur) / (86400000 : ℚ)⌉ →
        handleExtendStay fmtDate b cur newCO cs =
          cs ++ extendStayCharges fmtDate b cur
            (⌈(newCO - cur) / (86400000 : ℚ)⌉).toNat)
    ∧ (∀ (tbl : List Booking) (cs : List FolioCharge) (today bid : String),
        0 < countRR cs bid today →
        countRR (runNightAudit tbl cs today) bid today = countRR cs bid today) := by
  refine ⟨fun cs c => rfl, ?_, ?_⟩
  · intro fmtDate b cur newCO cs h
    simp [handleExtendStay, h]
  · intro tbl cs today bid h
    exact countRR_foldl_of_pos today _ cs bid h

/-- Witness for the amended claim C4: on a charge table already holding a
room-rent charge for booking b1 today, a night-audit run posts nothing new
for it. -/
theorem roomRent_duplicate_guard_witness :
    countRR (runNightAudit [] [exampleCharge1] "2026-02-01") "b1" "2026-02-01" =
      countRR [exampleCharge1] "b1" "2026-02-01" := by
  refine roomRent_duplicate_guard_only_in_night_audit.2.2 [] [exampleCharge1]
    "2026-02-01" "b1" ?_
  simp [countRR, auditPred, exampleCharge1]

/-- Claim C1 evaluated at the failing input: when both archival inserts
fail, `confirmCheckout` archives no document, yet still marks the booking
checked_out and the room vacant_dirty — the booking does not remain
checked_in for a retry, contradicting the claimed failure semantics. -/
theorem confirmCheckout_closes_booking_despite_archival_failure :
    failedArchivalCheckoutState.guest_documents = []
    ∧ bookingStatusIn failedArchivalCheckoutState "b1" =
        some BookingStatus.checked_out
    ∧ roomStatusIn failedArchivalCheckoutState "r1" =
        some RoomStatus.vacant_dirty := by
  refine ⟨rfl, ?_, ?_⟩
  · norm_num [failedArchivalCheckoutState, confirmCheckout, exampleState,
      exampleBooking, exampleRoom, bookingStatusIn, archiveInvoice, archiveGRC,
      finalPaymentRows, List.find?]
  · norm_num [failedArchivalCheckoutState, confirmCheckout, exampleState,
      exampleBooking, exampleRoom, roomStatusIn, archiveInvoice, archiveGRC,
      finalPaymentRows, List.find?]

/-- Claim C8: no branch of `confirmCheckout` deletes or mutates a recorded
payment — the payment table after any checkout run, archival failures
included, is exactly the prior table plus the (possibly empty) final
payment, hence a superset of the prior table. -/
theorem confirmCheckout_never_discards_payments :
    ∀ (st : DBState) (b : Booking) (payData : Option (ℚ × String))
      (bookingDataFound invoiceInsertFails grcInsertFails : Bool),
      (confirmCheckout st b payData bookingDataFound invoiceInsertFails
          grcInsertFails).payments =
        st.payments ++ finalPaymentRows b.id payData := by
  intro st b payData bookingDataFound invoiceInsertFails grcInsertFails
  rfl

/-- On a room table whose every row carrying the selected id is occupied,
the vacant_clean candidate list contains no row with that id. -/
theorem find?_loadAvailableRooms_eq_none (rooms : List Room) (sel : String)
    (h : ∀ r ∈ rooms, r.id = sel → r.status = RoomStatus.occupied) :
    (loadAvailableRooms rooms).find? (fun r => r.id == sel) = none := by
  rw [List.find?_eq_none]
  intro r hr hid
  rw [loadAvailableRooms, List.mem_filter] at hr
  have hclean : r.status = RoomStatus.vacant_clean := by
    have := hr.2
    simpa using this
  have hocc : r.status = RoomStatus.occupied :=
    h r hr.1 (by simpa using hid)
  rw [hclean] at hocc
  exact RoomStatus.noConfusion hocc

/-- Claim C6: the candidate rooms offered to check-in are exactly the
vacant_clean rooms, and both check-in paths fail (create nothing) when the
selected room is not among them — in particular an occupied room can never
be the target of a reservation check-in or a walk-in. -/
theorem occupied_room_cannot_be_checked_in :
    (∀ (rooms : List Room) (r : Room), r ∈ loadAvailableRooms rooms →
      r.status = RoomStatus.vacant_clean)
    ∧ (∀ (fmtDate : ℚ → String) (rooms : List Room) (sel nb : String)
        (resv : Reservation) (now : ℚ),
        (∀ r ∈ rooms, r.id = sel → r.status = RoomStatus.occupied) →
        processCheckIn fmtDate (loadAvailableRooms rooms) sel nb resv now = none)
    ∧ (∀ (fmtDate : ℚ → String) (rooms : List Room) (w : WalkInData)
        (eg ng : Option String) (nb : String) (now : ℚ),
        (∀ r ∈ rooms, r.id = w.roomId → r.status = RoomStatus.occupied) →
        processWalkIn fmtDate (loadAvailableRooms rooms) w eg ng nb now = none) := by
  refine ⟨?_, ?_, ?_⟩
  · intro rooms r hr
    rw [loadAvailableRooms, List.mem_filter] at hr
    simpa using hr.2
  · intro fmtDate rooms sel nb resv now h
    unfold processCheckIn
    by_cases hsel : sel = ""
    · simp [hsel]
    · rw [if_neg hsel, find?_loadAvailableRooms_eq_none rooms sel h]
  · intro fmtDate rooms w eg ng nb now h
    unfold processWalkIn
    by_cases hguard : w.guestName = "" ∨ w.mobile = "" ∨ w.roomId = ""
    · simp [hguard]
    · rw [if_neg hguard, find?_loadAvailableRooms_eq_none rooms w.roomId h]
      rcases eg.orElse (fun _ => ng) with - | gid <;> rfl

/-- Witness for claim C6: with the single occupied example room as the room
table, checking in to it fails. -/
theorem occupied_room_cannot_be_checked_in_witness :
    processCheckIn (fun _ => "2026-02-01") (loadAvailableRooms [exampleRoom])
      "r1" "bk2" exampleReservation 0 = none := by
  refine occupied_room_cannot_be_checked_in.2.1 (fun _ => "2026-02-01")
    [exampleRoom] "r1" "bk2" exampleReservation 0 ?_
  intro r hr _
  rw [List.mem_singleton.mp hr]
  rfl

/-- Counterexample to claim C9 as stated: the Guests-page check-in (a
reservation-based check-in path) posts one `room_rent` charge per night —
for a two-night stay, two charges and neither typed `room` — and the
CheckIn page's single `room`-typed charge is rejected by the
`folio_charges` valid_charge_type CHECK constraint, so it never persists
and the claimed room/room_rent coexistence state is unreachable. -/
theorem checkin_room_charge_counterexample :
    (handleCheckinCharges (fun _ => "2026-02-03") "Deluxe" 1500 "b9" 0
        172800000).map (fun c => c.charge_type) = ["room_rent", "room_rent"]
    ∧ insertFolioCharge [] exampleRoomCharge = [] := by
  constructor
  · have hn : (⌈((172800000 : ℚ) - 0) / 86400000⌉ : ℤ) = 2 := by norm_num
    simp only [handleCheckinCharges]
    rw [hn]
    rfl
  · have hmem : exampleRoomCharge.charge_type ∈ validChargeTypes → False := by
      decide
    unfold insertFolioCharge
    rw [if_neg hmem]

/-- Claim C9 (amended): the CheckIn page's two paths each attempt to insert
exactly one upfront folio charge typed `room` of amount base_rate × nights
with nights = ceil((expected checkout − check-in time) / 1 day), but `room`
is outside the folio_charges valid_charge_type CHECK constraint, so the
insert is rejected (its error ignored) and the charge never persists; the
Guests-page check-in instead posts one (CHECK-admissible) `room_rent`
charge per night.  Consequently a stayover checked in through the CheckIn
page has the same folio as if no upfront charge had been attempted, and
after the night audit it carries only the audit's `room_rent` charge — the
upfront `room` charge is silently lost rather than coexisting. -/
theorem checkin_room_charge_rejected_by_schema :
    (∀ (fmtDate : ℚ → String) (ar : List Room) (sel nb : String)
        (resv : Reservation) (now : ℚ) (res : CheckInResult),
      processCheckIn fmtDate ar sel nb resv now = some res →
      res.charge.charge_type = "room"
      ∧ (∃ room, room ∈ ar ∧ room.id = sel
          ∧ res.charge.amount = room.base_rate
              * ((⌈(resv.check_out_date_ms - now) / (86400000 : ℚ)⌉ : ℤ) : ℚ))
      ∧ ∀ cs : List FolioCharge, insertFolioCharge cs res.charge = cs)
    ∧ (∀ (fmtDate : ℚ → String) (ar : List Room) (w : WalkInData)
        (eg ng : Option String) (nb : String) (now : ℚ) (res : WalkInResult),
      processWalkIn fmtDate ar w eg ng nb now = some res →
      res.charge.charge_type = "room"
      ∧ (∃ room, room ∈ ar ∧ room.id = w.roomId
          ∧ res.charge.amount = room.base_rate * (w.nights : ℚ))
      ∧ (w.nights : ℤ) =
          ⌈(res.booking.expected_check_out_ms - now) / (86400000 : ℚ)⌉
      ∧ ∀ cs : List FolioCharge, insertFolioCharge cs res.charge = cs)
    ∧ (∀ (fmtDate : ℚ → String) (rtn : String) (rate : ℚ) (bid : String)
        (now co : ℚ),
      (handleCheckinCharges fmtDate rtn rate bid now co).length =
        (⌈(co - now) / (86400000 : ℚ)⌉).toNat
      ∧ ∀ c ∈ handleCheckinCharges fmtDate rtn rate bid now co,
          c.charge_type = "room_rent")
    ∧ (∀ (tbl : List Booking) (today : String) (b : Booking) (c : FolioCharge),
        b ∈ tbl → b.status = BookingStatus.checked_in →
        b.check_in_date < today → c.charge_type = "room" →
        runNightAudit tbl (insertFolioCharge [] c) today =
          runNightAudit tbl [] today
        ∧ 0 < countRR (runNightAudit tbl [] today) b.id today) := by
  refine ⟨?_, ?_, ?_, ?_⟩
  · intro fmtDate ar sel nb resv now res h
    unfold processCheckIn at h
    by_cases hsel : sel = ""
    · simp [hsel] at h
    · rw [if_neg hsel] at h
      cases hfind : ar.find? (fun r => r.id == sel) with
      | none => rw [hfind] at h; exact absurd h (by simp)
      | some room =>
        rw [hfind] at h
        have hres := (Option.some_injective _ h).symm
        have htype : res.charge.charge_type = "room" := by rw [hres]
        refine ⟨htype,
          ⟨room, List.mem_of_find?_eq_some hfind, ?_, by rw [hres]⟩, ?_⟩
        · have := List.find?_some hfind
          simpa using this
        · intro cs
          have hmem : res.charge.charge_type ∈ validChargeTypes → False := by
            rw [htype]
            decide
          unfold insertFolioCharge
          rw [if_neg hmem]
  · intro fmtDate ar w eg ng nb now res h
    unfold processWalkIn at h
    by_cases hguard : w.guestName = "" ∨ w.mobile = "" ∨ w.roomId = ""
    · simp [hguard] at h
    · rw [if_neg hguard] at h
      cases hor : eg.orElse (fun _ => ng) with
      | none => rw [hor] at h; exact absurd h (by simp)
      | some gid =>
        rw [hor] at h
        cases hfind : ar.find? (fun r => r.id == w.roomId) with
        | none => rw [hfind] at h; exact absurd h (by simp)
        | some room =>
          rw [hfind] at h
          have hres := (Option.some_injective _ h).symm
          have htype : res.charge.charge_type = "room" := by rw [hres]
          refine ⟨htype,
            ⟨room, List.mem_of_find?_eq_some hfind, ?_, by rw [hres]⟩, ?_, ?_⟩
          · have := List.find?_some hfind
            simpa using this
          · rw [hres]
            have h86 : (86400000 : ℚ) ≠ 0 := by norm_num
            rw [add_sub_cancel_left, mul_div_assoc, div_self h86, mul_one,
              Int.ceil_natCast]
          · intro cs
            have hmem : res.charge.charge_type ∈ validChargeTypes → False := by
              rw [htype]
              decide
            unfold insertFolioCharge
            rw [if_neg hmem]
  · intro fmtDate rtn rate bid now co
    constructor
    · simp only [handleCheckinCharges, List.length_map, List.length_range]
    · intro c hc
      simp only [handleCheckinCharges, List.mem_map] at hc
      obtain ⟨i, -, hi⟩ := hc
      subst hi
      rfl
  · intro tbl today b c hb hstatus hlt htype
    have hrej : insertFolioCharge [] c = [] := by
      have hmem : c.charge_type ∈ validChargeTypes → False := by
        rw [htype]
        decide
      unfold insertFolioCharge
      rw [if_neg hmem]
    refine ⟨by rw [hrej], ?_⟩
    have hmemf : b ∈ tbl.filter (fun b => b.status == BookingStatus.checked_in) := by
      rw [List.mem_filter]
      refine ⟨hb, ?_⟩
      simp [hstatus]
    exact countRR_foldl_pos_of_mem today _ [] b hmemf hlt

/-- Witness for the amended claim C9: the example `room`-typed charge is
rejected, leaving the stayover's folio empty, and the night audit then
posts its `room_rent` charge. -/
theorem checkin_room_charge_rejected_witness :
    runNightAudit [exampleBooking] (insertFolioCharge [] exampleRoomCharge)
        "2026-02-02" =
      runNightAudit [exampleBooking] [] "2026-02-02"
    ∧ 0 < countRR (runNightAudit [exampleBooking] [] "2026-02-02")
        "b1" "2026-02-02" := by
  have hlt : exampleBooking.check_in_date < "2026-02-02" := by
    rw [show exampleBooking.check_in_date = "2026-02-01" from rfl,
      String.lt_iff_toList_lt]
    decide
  exact checkin_room_charge_rejected_by_schema.2.2.2 [exampleBooking]
    "2026-02-02" exampleBooking exampleRoomCharge
    (List.mem_singleton.mpr rfl) rfl hlt rfl

end FrontOffice
